import Mathlib

/-!
A verification development for the SearXNG search API service
(`api/main.py`).  The Python source is shallowly embedded: pure helpers
(`get_cache_key`, `format_results`) become Lean functions, the stateful
request handlers (`search`, `images`, `health`) become explicit
state-passing functions over a cache state, and the network is modelled
as a function from URL and query parameters to an upstream outcome.

Modelling conventions:
* Machine integers are `Nat` (all integer parameters at the call sites are
  non-negative: FastAPI validates `limit ≥ 1`, `safesearch ≥ 0`).
* JSON numbers that are merely passed through (`search_duration`, `score`)
  are modelled as rationals; no arithmetic is performed on them.
* A JSON value that is absent and a JSON `null` are both modelled as
  `none`; the claims settled here never distinguish the two.
* `json.dumps(response_data)` on the miss path raises `TypeError` whenever
  the `results` entry — a list of pydantic `SearchResult` objects — is
  non-empty, since the stdlib encoder cannot serialize them; this uncaught
  exception is modelled by `jsonDumpsOk` / `ServerError.serializationTypeError`.
  When it succeeds (empty list) the dumped dict `loads` back unchanged, so
  cache values are modelled as `SearchResponse` values.
* `hashlib.md5` is embedded in full (RFC 1321) over byte lists, and
  `str.encode()` as UTF-8 encoding of the code points.
* Wall-clock items (TTL expiry, the `timestamp` field of `/health`) are
  outside the model; `ttl` arguments are carried but, as in the in-memory
  branch of the source, never interpreted.
-/

namespace SearxApi

/-! ## Configuration (`os.getenv` defaults from `api/main.py`) -/

/-- `CACHE_TTL = int(os.getenv("CACHE_TTL", "3600"))`. -/
def CACHE_TTL : Nat := 3600

/-! ## JSON serialization used by `get_cache_key`

`get_cache_key` feeds `f"{query}:{category}:{json.dumps(kwargs, sort_keys=True)}"`
to md5.  The kwargs at every call site are a dict from identifier keys to
ints and strings, so kwarg values are modelled by `JVal`.  The serializer
below follows CPython's `json.dumps` with its defaults: `ensure_ascii`
string escaping, separators `", "` and `": "`, keys sorted by code-point
order. -/

inductive JVal where
  | num (n : Nat)
  | str (s : String)
deriving DecidableEq

/-- Lower-case hex digit, as emitted by `%04x` / `%02x` formatting. -/
def hexDigit (k : Nat) : Char := "0123456789abcdef".data.getD k '0'

/-- Four-digit lower-case hex rendering of `n < 0x10000` (`'\\u%04x'`). -/
def hex4 (n : Nat) : List Char :=
  [hexDigit (n / 4096 % 16), hexDigit (n / 256 % 16), hexDigit (n / 16 % 16), hexDigit (n % 16)]

/-- CPython `json` escaping of one character under `ensure_ascii=True`:
printable ASCII other than `"` and `\` is kept, the short escapes of
`ESCAPE_DCT` are used for `\b \t \n \f \r " \`, remaining characters
become `\uXXXX`, astral code points become a surrogate pair. -/
def escChar (c : Char) : List Char :=
  let v := c.toNat
  if c = '"' then ['\\', '"']
  else if c = '\\' then ['\\', '\\']
  else if v = 8 then ['\\', 'b']
  else if v = 9 then ['\\', 't']
  else if v = 10 then ['\\', 'n']
  else if v = 12 then ['\\', 'f']
  else if v = 13 then ['\\', 'r']
  else if v < 32 then '\\' :: 'u' :: hex4 v
  else if v < 127 then [c]
  else if v < 65536 then '\\' :: 'u' :: hex4 v
  else
    let u := v - 65536
    '\\' :: 'u' :: hex4 (55296 + u / 1024) ++ '\\' :: 'u' :: hex4 (56320 + u % 1024)

/-- Escape a whole string body (the part between the quotes). -/
def escStr (s : List Char) : List Char := (s.map escChar).flatten

/-- Decimal rendering of a non-negative int, as `str(int)` / `json.dumps`. -/
def repNat (n : Nat) : List Char :=
  if n = 0 then ['0'] else ((Nat.digits 10 n).reverse.map hexDigit)

/-- Serialization of one kwarg value. -/
def jvalChars : JVal → List Char
  | .num n => repNat n
  | .str s => '"' :: escStr s.data ++ ['"']

/-- Serialization of one `"key": value` entry. -/
def entryChars (e : String × JVal) : List Char :=
  '"' :: escStr e.1.data ++ '"' :: ':' :: ' ' :: jvalChars e.2

/-- Join entries with the default `", "` separator. -/
def joinEntries : List (List Char) → List Char
  | [] => []
  | [e] => e
  | e :: es => e ++ ',' :: ' ' :: joinEntries es

/-- Lexicographic order on code-point sequences: Python's `str` comparison,
used by `sorted`/`sort_keys`. -/
def lexLe : List Nat → List Nat → Bool
  | [], _ => true
  | _ :: _, [] => false
  | a :: as, b :: bs => if a < b then true else if a = b then lexLe as bs else false

/-- Python `s <= t` on strings: code-point lexicographic comparison. -/
def keyLe (s t : String) : Bool := lexLe (s.data.map Char.toNat) (t.data.map Char.toNat)

/-- `sort_keys=True`: entries ordered by code-point order on the keys. -/
def sortKwargs (kwargs : List (String × JVal)) : List (String × JVal) :=
  List.insertionSort (fun a b => keyLe a.1 b.1 = true) kwargs

/-- `json.dumps(kwargs, sort_keys=True)`. -/
def dumps (kwargs : List (String × JVal)) : List Char :=
  '{' :: joinEntries ((sortKwargs kwargs).map entryChars) ++ ['}']

/-- The pre-hash key material
`f"{query}:{category}:{json.dumps(kwargs, sort_keys=True)}"`. -/
def keyData (query category : String) (kwargs : List (String × JVal)) : List Char :=
  query.data ++ ':' :: category.data ++ ':' :: dumps kwargs

/-! ## `str.encode()` (UTF-8) and `hashlib.md5` -/

/-- UTF-8 encoding of a single code point. -/
def utf8Char (c : Char) : List Nat :=
  let v := c.toNat
  if v < 128 then [v]
  else if v < 2048 then [192 + v / 64, 128 + v % 64]
  else if v < 65536 then [224 + v / 4096, 128 + v / 64 % 64, 128 + v % 64]
  else [240 + v / 262144, 128 + v / 4096 % 64, 128 + v / 64 % 64, 128 + v % 64]

/-- `str.encode()`: UTF-8 bytes of the string. -/
def utf8Encode (s : List Char) : List Nat := (s.map utf8Char).flatten

/-- `2 ^ 32`, the word modulus of MD5. -/
def M32 : Nat := 4294967296

/-- 32-bit left rotation of `x < 2^32` by `s ≤ 32`, in plain arithmetic:
low bits shifted up plus the wrapped-around high bits. -/
def rotl (x s : Nat) : Nat := (x * 2 ^ s) % M32 + x % M32 / 2 ^ (32 - s)

/-- 32-bit complement. -/
def mdNot (x : Nat) : Nat := 4294967295 ^^^ x % M32

/-- The 64 MD5 sine-derived constants (RFC 1321). -/
def mdK : List Nat :=
  [0xd76aa478, 0xe8c7b756, 0x242070db, 0xc1bdceee,
   0xf57c0faf, 0x4787c62a, 0xa8304613, 0xfd469501,
   0x698098d8, 0x8b44f7af, 0xffff5bb1, 0x895cd7be,
   0x6b901122, 0xfd987193, 0xa679438e, 0x49b40821,
   0xf61e2562, 0xc040b340, 0x265e5a51, 0xe9b6c7aa,
   0xd62f105d, 0x02441453, 0xd8a1e681, 0xe7d3fbc8,
   0x21e1cde6, 0xc33707d6, 0xf4d50d87, 0x455a14ed,
   0xa9e3e905, 0xfcefa3f8, 0x676f02d9, 0x8d2a4c8a,
   0xfffa3942, 0x8771f681, 0x6d9d6122, 0xfde5380c,
   0xa4beea44, 0x4bdecfa9, 0xf6bb4b60, 0xbebfbc70,
   0x289b7ec6, 0xeaa127fa, 0xd4ef3085, 0x04881d05,
   0xd9d4d039, 0xe6db99e5, 0x1fa27cf8, 0xc4ac5665,
   0xf4292244, 0x432aff97, 0xab9423a7, 0xfc93a039,
   0x655b59c3, 0x8f0ccc92, 0xffeff47d, 0x85845dd1,
   0x6fa87e4f, 0xfe2ce6e0, 0xa3014314, 0x4e0811a1,
   0xf7537e82, 0xbd3af235, 0x2ad7d2bb, 0xeb86d391]

/-- The 64 MD5 per-round rotation amounts. -/
def mdS : List Nat :=
  [7, 12, 17, 22, 7, 12, 17, 22, 7, 12, 17, 22, 7, 12, 17, 22,
   5, 9, 14, 20, 5, 9, 14, 20, 5, 9, 14, 20, 5, 9, 14, 20,
   4, 11, 16, 23, 4, 11, 16, 23, 4, 11, 16, 23, 4, 11, 16, 23,
   6, 10, 15, 21, 6, 10, 15, 21, 6, 10, 15, 21, 6, 10, 15, 21]

/-- One MD5 round on the state `(a, b, c, d)` with message words `M`. -/
def md5Step (M : List Nat) (st : Nat × Nat × Nat × Nat) (i : Nat) :
    Nat × Nat × Nat × Nat :=
  let (a, b, c, d) := st
  let f :=
    if i < 16 then b &&& c ||| mdNot b &&& d
    else if i < 32 then d &&& b ||| mdNot d &&& c
    else if i < 48 then b ^^^ c ^^^ d
    else c ^^^ (b ||| mdNot d)
  let g :=
    if i < 16 then i
    else if i < 32 then (5 * i + 1) % 16
    else if i < 48 then (3 * i + 5) % 16
    else 7 * i % 16
  let f2 := (f + a + mdK.getD i 0 + M.getD g 0) % M32
  (d, (b + rotl f2 (mdS.getD i 0)) % M32, b, c)

/-- Process one 64-byte block: 16 little-endian words, 64 rounds, add back. -/
def md5Block (st : Nat × Nat × Nat × Nat) (block : List Nat) :
    Nat × Nat × Nat × Nat :=
  let M := (List.range 16).map fun j =>
    block.getD (4 * j) 0 + 256 * block.getD (4 * j + 1) 0 +
      65536 * block.getD (4 * j + 2) 0 + 16777216 * block.getD (4 * j + 3) 0
  let r := (List.range 64).foldl (md5Step M) st
  ((st.1 + r.1) % M32, (st.2.1 + r.2.1) % M32,
   (st.2.2.1 + r.2.2.1) % M32, (st.2.2.2 + r.2.2.2) % M32)

/-- MD5 padding: `0x80`, zeros to 56 mod 64, 64-bit little-endian bit length. -/
def md5Pad (msg : List Nat) : List Nat :=
  let bl := 8 * msg.length % 18446744073709551616
  msg ++ 128 :: List.replicate ((119 - msg.length % 64) % 64) 0 ++
    (List.range 8).map fun j => bl / 2 ^ (8 * j) % 256

/-- Split into 64-byte chunks. -/
def md5Chunks (l : List Nat) : List (List Nat) :=
  if h : l = [] then [] else
    have : (List.drop 64 l).length < l.length := by
      cases l with
      | nil => exact absurd rfl h
      | cons a t => simp [List.length_drop]; omega
    l.take 64 :: md5Chunks (l.drop 64)
termination_by l.length

/-- Little-endian bytes of one 32-bit word. -/
def toBytesLE (w : Nat) : List Nat :=
  [w % 256, w / 256 % 256, w / 65536 % 256, w / 16777216 % 256]

/-- `hashlib.md5(msg).digest()`: the 16 digest bytes. -/
def md5 (msg : List Nat) : List Nat :=
  let r := (md5Chunks (md5Pad msg)).foldl md5Block
    (0x67452301, 0xefcdab89, 0x98badcfe, 0x10325476)
  toBytesLE r.1 ++ toBytesLE r.2.1 ++ toBytesLE r.2.2.1 ++ toBytesLE r.2.2.2

/-- Two lower-case hex digits of a byte (`hexdigest` rendering). -/
def hexByte (b : Nat) : List Char := [hexDigit (b / 16 % 16), hexDigit (b % 16)]

/-- `hashlib.md5(msg).hexdigest()` as characters. -/
def hexdigest (bytes : List Nat) : List Char := (bytes.map hexByte).flatten

/-- `get_cache_key` (`api/main.py:85-88`):
`f"search:{hashlib.md5(key_data.encode()).hexdigest()}"` over
`key_data = f"{query}:{category}:{json.dumps(kwargs, sort_keys=True)}"`. -/
def get_cache_key (query category : String) (kwargs : List (String × JVal)) : String :=
  String.mk ("search:".data ++ hexdigest (md5 (utf8Encode (keyData query category kwargs))))

/-! ## Verification devices for the key derivation

None of the following functions embed source code; they exist to prove
that the serialization inside `get_cache_key` is injective where the
claims need it, and that the digest has a finite range. -/

/-- Value of a lower-case hex digit character. -/
def hexVal (c : Char) : Option Nat :=
  if 48 ≤ c.toNat ∧ c.toNat ≤ 57 then some (c.toNat - 48)
  else if 97 ≤ c.toNat ∧ c.toNat ≤ 102 then some (c.toNat - 87)
  else none

/-- Inverse of the short escapes emitted by `escChar`. -/
def unesc (e : Char) : Option Nat :=
  if e = '"' then some 34
  else if e = '\\' then some 92
  else if e = 'b' then some 8
  else if e = 't' then some 9
  else if e = 'n' then some 10
  else if e = 'f' then some 12
  else if e = 'r' then some 13
  else none

/-- Combined value of four hex digit characters. -/
def hexVal4 (h1 h2 h3 h4 : Char) : Option Nat :=
  match hexVal h1, hexVal h2, hexVal h3, hexVal h4 with
  | some a, some b, some c, some d => some (4096 * a + 256 * b + 16 * c + d)
  | _, _, _, _ => none

/-- Reads the low-surrogate half `\uXXXX` following a high surrogate `n`
and combines the pair into one code point. -/
def readPair (n : Nat) : List Char → Option (Nat × List Char)
  | b1 :: b2 :: g1 :: g2 :: g3 :: g4 :: rest3 =>
    if b1 = '\\' ∧ b2 = 'u' then
      match hexVal4 g1 g2 g3 g4 with
      | some m =>
        if 56320 ≤ m ∧ m ≤ 57343 then
          some (65536 + (n - 55296) * 1024 + (m - 56320), rest3)
        else none
      | none => none
    else none
  | _ => none

/-- Reads the payload of a `\uXXXX` escape: a lone unit outside the
surrogate range, or a high surrogate followed by its low surrogate. -/
def readU : List Char → Option (Nat × List Char)
  | h1 :: h2 :: h3 :: h4 :: rest2 =>
    match hexVal4 h1 h2 h3 h4 with
    | some n =>
      if n < 55296 ∨ 57343 < n then some (n, rest2)
      else if n ≤ 56319 then readPair n rest2
      else none
    | none => none
  | _ => none

/-- Reads one escape token (the part after a backslash), undoing
`escChar`: a short escape or a `\uXXXX` form.  Returns the decoded code
point and the remaining input. -/
def readEsc : List Char → Option (Nat × List Char)
  | [] => none
  | e :: rest1 =>
    if e = 'u' then readU rest1
    else (unesc e).map fun u => (u, rest1)

/-- Fuelled decoder for the escaped string body: consumes characters up to
the first closing quote, undoing `escChar` via `readEsc`, and returns the
decoded code points together with the input after that quote.  One unit of
fuel is spent per decoded code point. -/
def decF : Nat → List Char → Option (List Nat × List Char)
  | 0, _ => none
  | _ + 1, [] => none
  | fuel + 1, c :: rest =>
    if c = '"' then some ([], rest)
    else if c = '\\' then
      match readEsc rest with
      | some (u, rest') => (decF fuel rest').map fun p => (u :: p.1, p.2)
      | none => none
    else (decF fuel rest).map fun p => (c.toNat :: p.1, p.2)

/-- The decoder with enough fuel for its input.  Left inverse of `escStr`
(proved below); used to show `escStr` is a prefix code. -/
def dec (l : List Char) : Option (List Nat × List Char) := decF l.length l

/-- Decimal digit character predicate (`'0'`-`'9'`). -/
def isDigitCh (c : Char) : Prop := 48 ≤ c.toNat ∧ c.toNat ≤ 57

instance (c : Char) : Decidable (isDigitCh c) := by
  unfold isDigitCh
  infer_instance

/-- The 16 digest bytes packaged into a finite type (each byte clamped,
vacuously, below 256); the injection behind the pigeonhole argument. -/
def digestVec (msg : List Nat) (i : Fin 16) : Fin 256 :=
  ⟨min ((md5 msg).getD i 0) 255, by omega⟩

/-! ## Data model (`api/main.py:61-82`)

`RawResult` models one raw upstream result dict as read by
`format_results`; each field is the payload found under the
corresponding key, `none` when the key is absent. -/

structure RawResult where
  title : Option String := none
  url : Option String := none
  content : Option String := none
  abstract : Option String := none
  engine : Option String := none
  score : Option Rat := none
  publishedDate : Option String := none
  thumbnail : Option String := none
deriving DecidableEq

/-- The pydantic `SearchResult` model. -/
structure SearchResult where
  title : String
  url : String
  content : Option String := none
  engine : String
  score : Option Rat := none
  publishedDate : Option String := none
  thumbnail : Option String := none
deriving DecidableEq

/-- The pydantic `SearchResponse` model. -/
structure SearchResponse where
  query : String
  results : List SearchResult
  total : Nat
  time : Rat
  cached : Bool := false
  engines : List String
deriving DecidableEq

/-- The pydantic `HealthResponse` model (the wall-clock `timestamp` field
is outside the model). -/
structure HealthResponse where
  status : String
  searxng : String
  redis : String
deriving DecidableEq

/-- The upstream JSON body as read by the handlers: `data.get("results", [])`,
`data.get("number_of_results", 0)`, `data.get("search_duration", 0)`,
`data.get("engines", [])`; `none` models an absent key. -/
structure UpstreamData where
  results : List RawResult := []
  number_of_results : Option Nat := none
  search_duration : Option Rat := none
  engines : Option (List String) := none
deriving DecidableEq

/-! ## Result formatting (`format_results`, `api/main.py:115-131`) -/

/-- The body of the loop in `format_results`: one raw result dict mapped to
the canonical `SearchResult`. -/
def formatResult (r : RawResult) (category : String) : SearchResult :=
  { title := r.title.getD "Untitled"
    url := r.url.getD ""
    content := some (r.content.getD (r.abstract.getD ""))
    engine := r.engine.getD "unknown"
    score := r.score
    publishedDate := r.publishedDate
    thumbnail := if category = "images" then r.thumbnail else none }

/-- `format_results(data, category)`. -/
def format_results (data : UpstreamData) (category : String) : List SearchResult :=
  data.results.map (formatResult · category)

/-! ## Cache layer (`api/main.py:34-58`)

At startup the service keeps a Redis client exactly when `REDIS_URL` is
set and the initial `ping()` succeeds (the `try/except` at lines 36-42);
`CacheCtx.redis_client` records that fact.  The current reachability and
contents of the Redis store are part of the per-request state: a request-
time Redis operation against an unreachable store raises, and nothing in
`cache_get`/`cache_set` catches it. -/

/-- Reachability and contents of the configured Redis store at request time. -/
inductive RedisState where
  | up (store : List (String × SearchResponse))
  | down
deriving DecidableEq

/-- Whether a Redis client survived startup (`redis_client is not None`). -/
structure CacheCtx where
  redis_client : Bool
deriving DecidableEq

/-- Mutable state seen by one request: the Redis store and `_memory_cache`. -/
structure CacheState where
  redis : RedisState
  memory : List (String × SearchResponse)
deriving DecidableEq

/-- A raised `redis` exception (connection failure); uncaught by the code. -/
inductive CacheError where
  | connectionError
deriving DecidableEq

/-- `redis_client = None if ping fails` (`api/main.py:36-42`): a client is
kept iff `REDIS_URL` is set and the store was reachable at startup. -/
def startupRedisClient (redisUrlSet reachableAtStartup : Bool) : CacheCtx :=
  ⟨redisUrlSet && reachableAtStartup⟩

/-- Dict lookup on an association list (first binding wins). -/
def lookup : List (String × SearchResponse) → String → Option SearchResponse
  | [], _ => none
  | (k, v) :: t, key => if k = key then some v else lookup t key

/-- `cache_get` (`api/main.py:47-51`).  With a Redis client, reads Redis —
raising if the store is now unreachable; otherwise reads `_memory_cache`. -/
def cache_get (ctx : CacheCtx) (st : CacheState) (key : String) :
    Except CacheError (Option SearchResponse) :=
  if ctx.redis_client then
    match st.redis with
    | .up store => .ok (lookup store key)
    | .down => .error .connectionError
  else .ok (lookup st.memory key)

/-- `cache_set` (`api/main.py:53-58`).  With a Redis client, `setex` —
raising if the store is now unreachable; otherwise writes `_memory_cache`
(the `ttl` is dropped there, exactly as in the source). -/
def cache_set (ctx : CacheCtx) (st : CacheState) (key : String)
    (value : SearchResponse) (ttl : Nat) : Except CacheError CacheState :=
  if ctx.redis_client then
    match st.redis with
    | .up store => .ok { st with redis := .up ((key, value) :: store) }
    | .down => .error .connectionError
  else .ok { st with memory := (key, value) :: st.memory }

/-! ## Upstream query (`search_searxng`, `api/main.py:91-112`) -/

/-- The query parameters sent to `{SEARXNG_URL}/search`.  Note the source
never forwards `limit`; truncation happens after formatting. -/
structure UpstreamParams where
  q : String
  format : String
  categories : String
  language : String
  safesearch : Nat
  pageno : Nat
deriving DecidableEq

/-- The network: what a GET of `url` with the given parameters yields —
a parsed JSON body on HTTP 200, or the message of the raised
`httpx.HTTPError` (timeout, transport error, or `raise_for_status`). -/
def Network : Type := String → UpstreamParams → Except String UpstreamData

/-- `search_searxng(query, category, limit, safesearch, language)`: one
request to the single configured instance.  `limit` is accepted but not
sent (faithful to the source's params dict). -/
def search_searxng (net : Network) (searxng_url : String) (query category : String)
    (limit safesearch : Nat) (language : String) : Except String UpstreamData :=
  net searxng_url
    { q := query, format := "json", categories := category,
      language := language, safesearch := safesearch, pageno := 1 }

/-! ## Request handlers -/

/-- How a handler invocation terminates. -/
inductive ServerError where
  /-- A raised `HTTPException` with status code and detail. -/
  | http (status : Nat) (detail : String)
  /-- An uncaught request-time Redis exception (FastAPI turns it into a
  plain 500). -/
  | internal (e : CacheError)
  /-- The uncaught `TypeError` raised by `json.dumps(response_data)`
  (`api/main.py:169`, `237`) when the `results` list is non-empty:
  pydantic `SearchResult` objects are not JSON serializable.  FastAPI
  surfaces it as a plain 500. -/
  | serializationTypeError
deriving DecidableEq

/-- Whether `json.dumps(response_data)` succeeds on the response dict: the
`"results"` entry is a list of pydantic `SearchResult` objects (built by
`format_results`), which the stdlib encoder rejects, so `dumps` raises
`TypeError` exactly when that list is non-empty; every other entry is
JSON-native. -/
def jsonDumpsOk (r : SearchResponse) : Bool := r.results.isEmpty

/-- The `/search` handler (`api/main.py:134-171`), state-passing: returns
the response body together with the cache state after the request.  On a
miss the response dict is serialized (`json.dumps`) for caching before it
is returned, which raises `TypeError` for a non-empty result list (see
`jsonDumpsOk`). -/
def search (ctx : CacheCtx) (st : CacheState) (net : Network) (searxng_url : String)
    (q : String) (limit safesearch : Nat) (language : String) :
    Except ServerError (SearchResponse × CacheState) :=
  let cache_key := get_cache_key q "general"
    [("limit", .num limit), ("safesearch", .num safesearch), ("lang", .str language)]
  match cache_get ctx st cache_key with
  | .error e => .error (.internal e)
  | .ok (some data) => .ok ({ data with cached := true }, st)
  | .ok none =>
    match search_searxng net searxng_url q "general" limit safesearch language with
    | .error e => .error (.http 503 ("Search service unavailable: " ++ e))
    | .ok data =>
      let response : SearchResponse :=
        { query := q
          results := (format_results data "general").take limit
          total := data.number_of_results.getD 0
          time := data.search_duration.getD 0
          cached := false
          engines := data.engines.getD [] }
      if jsonDumpsOk response then
        match cache_set ctx st cache_key response CACHE_TTL with
        | .error e => .error (.internal e)
        | .ok st' => .ok (response, st')
      else .error .serializationTypeError

/-- The `/images` handler (`api/main.py:207-238`).  It declares no
`language` parameter: the cache key has no `lang` entry and
`search_searxng` is called with its default `language="en"`.  The miss
path serializes the response dict exactly as `/search` does, with the
same `TypeError` on a non-empty result list. -/
def images (ctx : CacheCtx) (st : CacheState) (net : Network) (searxng_url : String)
    (q : String) (limit safesearch : Nat) :
    Except ServerError (SearchResponse × CacheState) :=
  let cache_key := get_cache_key q "images"
    [("limit", .num limit), ("safesearch", .num safesearch)]
  match cache_get ctx st cache_key with
  | .error e => .error (.internal e)
  | .ok (some data) => .ok ({ data with cached := true }, st)
  | .ok none =>
    match search_searxng net searxng_url q "images" limit safesearch "en" with
    | .error e => .error (.http 503 ("Search service unavailable: " ++ e))
    | .ok data =>
      let response : SearchResponse :=
        { query := q
          results := (format_results data "images").take limit
          total := data.number_of_results.getD 0
          time := data.search_duration.getD 0
          cached := false
          engines := data.engines.getD [] }
      if jsonDumpsOk response then
        match cache_set ctx st cache_key response CACHE_TTL with
        | .error e => .error (.internal e)
        | .ok st' => .ok (response, st')
      else .error .serializationTypeError

/-- An incoming HTTP request's query parameters (`None` = not supplied).
`/news` and `/videos` mirror `/search` and `/images` verbatim and are not
needed by any claim. -/
structure Request where
  q : String
  limit : Option Nat := none
  safesearch : Option Nat := none
  language : Option String := none
deriving DecidableEq

/-- FastAPI binding for `/search`: declared parameters with defaults
`limit=10`, `safesearch=1`, `language="en"`. -/
def search_endpoint (req : Request) (ctx : CacheCtx) (st : CacheState)
    (net : Network) (searxng_url : String) :
    Except ServerError (SearchResponse × CacheState) :=
  search ctx st net searxng_url req.q (req.limit.getD 10) (req.safesearch.getD 1)
    (req.language.getD "en")

/-- FastAPI binding for `/images`: declared parameters with defaults
`limit=20`, `safesearch=1`.  A `language` query parameter is undeclared,
hence ignored by FastAPI. -/
def images_endpoint (req : Request) (ctx : CacheCtx) (st : CacheState)
    (net : Network) (searxng_url : String) :
    Except ServerError (SearchResponse × CacheState) :=
  images ctx st net searxng_url req.q (req.limit.getD 20) (req.safesearch.getD 1)

/-- The body extracted from a handler outcome (state dropped). -/
def respOf (r : Except ServerError (SearchResponse × CacheState)) :
    Option SearchResponse :=
  match r with
  | .ok (resp, _) => some resp
  | .error _ => none

/-! ## `/health` (`api/main.py:273-303`) -/

/-- Outcome of the `GET {SEARXNG_URL}/healthz` probe: an HTTP response
with some status code, or a raised exception. -/
inductive ProbeOutcome where
  | response (statusCode : Nat)
  | exc
deriving DecidableEq

/-- The `/health` handler.  `redisUrlSet` is whether `REDIS_URL` is
configured, `redis_client` whether a client survived startup, `ping`
whether the request-time `ping()` succeeds. -/
def health (redisUrlSet redis_client : Bool) (probe : ProbeOutcome)
    (ping : Bool) : HealthResponse :=
  let searxng_status :=
    match probe with
    | .response code => if code = 200 then "healthy" else "unhealthy"
    | .exc => "unreachable"
  let redis_status :=
    if !redisUrlSet then "disabled"
    else if redis_client then (if ping then "healthy" else "unreachable")
    else "unknown"
  { status := if searxng_status = "healthy" then "healthy" else "degraded"
    searxng := searxng_status
    redis := redis_status }

/-! ## The fallback dispatcher of the specification -/

/-- Modelled from the spec: §4.2 describes a fallback dispatcher that is
absent from `api/main.py` — a shuffled candidate pool attempted in order,
capped at 5 attempts, returning the first success and otherwise an
aggregate error carrying one failure message per attempted endpoint.  The
shuffled order is taken as an input.  This definition exists only to be
compared with the source's single-instance behaviour. -/
def spec_dispatch_go (net : Network) (params : UpstreamParams) :
    List String → List String → Except (List String) UpstreamData
  | acc, [] => .error acc.reverse
  | acc, u :: rest =>
    match net u params with
    | .ok d => .ok d
    | .error e => spec_dispatch_go net params (e :: acc) rest

/-- Modelled from the spec: the dispatcher applied to the (already
shuffled) candidate order, attempt count capped at 5. -/
def spec_dispatch (order : List String) (net : Network) (params : UpstreamParams) :
    Except (List String) UpstreamData :=
  spec_dispatch_go net params [] (order.take 5)

/-! ## Abbreviations for statements

These name subterms of the handlers (definitionally equal to what the
handler bodies construct); they carry no behaviour of their own. -/

/-- The response dict a handler builds on a cache miss. -/
def buildResponse (q : String) (limit : Nat) (category : String)
    (data : UpstreamData) : SearchResponse :=
  { query := q
    results := (format_results data category).take limit
    total := data.number_of_results.getD 0
    time := data.search_duration.getD 0
    cached := false
    engines := data.engines.getD [] }

/-- The cache key the `/search` handler computes. -/
def searchKey (q : String) (limit safesearch : Nat) (language : String) : String :=
  get_cache_key q "general"
    [("limit", .num limit), ("safesearch", .num safesearch), ("lang", .str language)]

/-- The cache key the `/images` handler computes (no `lang` entry). -/
def imagesKey (q : String) (limit safesearch : Nat) : String :=
  get_cache_key q "images" [("limit", .num limit), ("safesearch", .num safesearch)]

/-- The upstream query parameters the `/search` handler sends. -/
def searchParams (q : String) (safesearch : Nat) (language : String) : UpstreamParams :=
  ⟨q, "json", "general", language, safesearch, 1⟩

/-- The upstream query parameters the `/images` handler sends: always
`language="en"`. -/
def imagesParams (q : String) (safesearch : Nat) : UpstreamParams :=
  ⟨q, "json", "images", "en", safesearch, 1⟩

/-- Whether `pat` occurs as a contiguous subsequence of `s`. -/
def containsSeq (pat s : List Char) : Bool :=
  (List.range (s.length + 1)).any fun i => (s.drop i).take pat.length == pat

/-! ## Concrete scenarios for the counterexamples -/

/-- A pool of two instances: `instance-a` always fails, `instance-b`
always succeeds. -/
def poolNetAB : Network := fun u _ =>
  if u = "http://instance-a" then .error "connection refused"
  else .ok { results := [{ title := some "from-b", url := some "http://b/1" }] }

/-- A pool of two instances that both fail, with distinct messages. -/
def poolNetFail : Network := fun u _ =>
  .error (if u = "http://instance-a" then "errA" else "errB")

/-- An upstream that reports back which `language` parameter it was sent. -/
def langProbeNet : Network := fun _ p => .ok { engines := some [p.language] }

/-! # Lemmas about the cache layer -/

theorem lookup_cons_self (k : String) (v : SearchResponse)
    (t : List (String × SearchResponse)) : lookup ((k, v) :: t) k = some v := by
  simp [lookup]

/-- If a read succeeds, then a write succeeds and is seen by the next read:
`cache_get` succeeding pins down which store is in use and that it is
reachable. -/
theorem cache_roundtrip (ctx : CacheCtx) (st : CacheState) (key : String)
    (o : Option SearchResponse) (v : SearchResponse) (ttl : Nat)
    (h : cache_get ctx st key = .ok o) :
    ∃ st', cache_set ctx st key v ttl = .ok st' ∧
      cache_get ctx st' key = .ok (some v) := by
  cases hc : ctx.redis_client with
  | false =>
    refine ⟨{ st with memory := (key, v) :: st.memory }, ?_, ?_⟩ <;>
      simp [cache_set, cache_get, hc, lookup]
  | true =>
    cases hr : st.redis with
    | down => simp [cache_get, hc, hr] at h
    | up store =>
      refine ⟨{ st with redis := .up ((key, v) :: store) }, ?_, ?_⟩ <;>
        simp [cache_set, cache_get, hc, hr, lookup]

/-! # Unfolding lemmas for the handlers -/

/-- `/search` on a cache hit: stored response re-flagged, state unchanged. -/
theorem search_hit (ctx : CacheCtx) (st : CacheState) (net : Network) (url q : String)
    (limit safesearch : Nat) (language : String) (data : SearchResponse)
    (h : cache_get ctx st (searchKey q limit safesearch language) = .ok (some data)) :
    search ctx st net url q limit safesearch language =
      .ok ({ data with cached := true }, st) := by
  unfold searchKey at h
  simp only [search, h]

/-- `/search` on a cache miss with a successful upstream, a serializable
(empty) result list, and a successful write. -/
theorem search_miss (ctx : CacheCtx) (st : CacheState) (net : Network) (url q : String)
    (limit safesearch : Nat) (language : String) (data : UpstreamData) (st' : CacheState)
    (h1 : cache_get ctx st (searchKey q limit safesearch language) = .ok none)
    (h2 : net url (searchParams q safesearch language) = .ok data)
    (hser : (format_results data "general").take limit = [])
    (h3 : cache_set ctx st (searchKey q limit safesearch language)
      (buildResponse q limit "general" data) CACHE_TTL = .ok st') :
    search ctx st net url q limit safesearch language =
      .ok (buildResponse q limit "general" data, st') := by
  unfold searchKey at h1 h3
  unfold searchParams at h2
  unfold buildResponse at h3 ⊢
  simp only [search, search_searxng, h1, h2, h3]
  simp [jsonDumpsOk, hser]

/-- `/search` on a cache miss with a successful upstream but a non-empty
result list: `json.dumps(response_data)` raises `TypeError`
(`api/main.py:169`) and the request dies as a 500 — nothing is cached,
nothing is returned. -/
theorem search_miss_typeError (ctx : CacheCtx) (st : CacheState) (net : Network)
    (url q : String) (limit safesearch : Nat) (language : String) (data : UpstreamData)
    (h1 : cache_get ctx st (searchKey q limit safesearch language) = .ok none)
    (h2 : net url (searchParams q safesearch language) = .ok data)
    (hser : (format_results data "general").take limit ≠ []) :
    search ctx st net url q limit safesearch language =
      .error .serializationTypeError := by
  unfold searchKey at h1
  unfold searchParams at h2
  simp only [search, search_searxng, h1, h2]
  simp [jsonDumpsOk, hser]

/-- `/search` on a cache miss with a failing upstream: 503. -/
theorem search_upstream_fail (ctx : CacheCtx) (st : CacheState) (net : Network)
    (url q : String) (limit safesearch : Nat) (language : String) (e : String)
    (h1 : cache_get ctx st (searchKey q limit safesearch language) = .ok none)
    (h2 : net url (searchParams q safesearch language) = .error e) :
    search ctx st net url q limit safesearch language =
      .error (.http 503 ("Search service unavailable: " ++ e)) := by
  unfold searchKey at h1
  unfold searchParams at h2
  simp only [search, search_searxng, h1, h2]

/-- `/images` on a cache miss with a successful upstream, a serializable
(empty) result list, and a successful write. -/
theorem images_miss (ctx : CacheCtx) (st : CacheState) (net : Network) (url q : String)
    (limit safesearch : Nat) (data : UpstreamData) (st' : CacheState)
    (h1 : cache_get ctx st (imagesKey q limit safesearch) = .ok none)
    (h2 : net url (imagesParams q safesearch) = .ok data)
    (hser : (format_results data "images").take limit = [])
    (h3 : cache_set ctx st (imagesKey q limit safesearch)
      (buildResponse q limit "images" data) CACHE_TTL = .ok st') :
    images ctx st net url q limit safesearch =
      .ok (buildResponse q limit "images" data, st') := by
  unfold imagesKey at h1 h3
  unfold imagesParams at h2
  unfold buildResponse at h3 ⊢
  simp only [images, search_searxng, h1, h2, h3]
  simp [jsonDumpsOk, hser]

/-! # Claims C2, C3 (code bugs), C4, C7, C10 -/

/-- C2: the claim is the program's own documented intent (`test.py`,
`test_cached`, asserts exactly this flag sequence), but the code violates
it: on a cache miss whose upstream returns any result at all,
`json.dumps(response_data)` at `api/main.py:169` raises `TypeError`
(pydantic `SearchResult` objects are not JSON serializable), so the first
call dies as an uncaught 500 instead of returning `cached = false`, and
nothing is ever cached.  Evaluated here at a failing input: empty cache,
query "cache test", upstream succeeding with one result. -/
theorem C2_code_bug :
    search ⟨false⟩ ⟨.up [], []⟩
        (fun _ _ => .ok { results := [{ title := some "t", url := some "http://r/1" }] })
        "http://localhost:8080" "cache test" 1 1 "en" =
      .error .serializationTypeError := rfl

/-- C3: the claim's own scenario is a failing input of the code: with
`limit = 3` and 10 raw upstream results the handler builds the correctly
truncated response — the first 3 formatted results in upstream order
(second and third conjuncts) — but then `json.dumps(response_data)` at
`api/main.py:169` raises `TypeError` on the non-empty `SearchResult`
list, so the request dies as a 500 returning no results at all (first
conjunct). -/
theorem C3_code_bug :
    search ⟨false⟩ ⟨.up [], []⟩ (fun _ _ => .ok { results := List.replicate 10 {} })
        "http://localhost:8080" "python" 3 1 "en" = .error .serializationTypeError ∧
    (buildResponse "python" 3 "general" { results := List.replicate 10 {} }).results =
      ((List.replicate 10 ({} : RawResult)).take 3).map (formatResult · "general") ∧
    (buildResponse "python" 3 "general"
        { results := List.replicate 10 {} }).results.length = 3 :=
  ⟨rfl, by simp [buildResponse, format_results, List.map_take], by decide⟩

/-- C4: a formatted result carries a thumbnail only for the `images`
category: it passes the raw thumbnail through for `images` and is `none`
for every other category, even when the raw result supplies one. -/
theorem C4_thumbnail_gating (r : RawResult) (category : String) (data : UpstreamData)
    (hc : category ≠ "images") :
    (formatResult r "images").thumbnail = r.thumbnail ∧
    (formatResult r category).thumbnail = none ∧
    (∀ s ∈ format_results data category, s.thumbnail = none) := by
  refine ⟨rfl, by simp [formatResult, hc], ?_⟩
  intro s hs
  simp only [format_results, List.mem_map] at hs
  obtain ⟨raw, -, rfl⟩ := hs
  simp [formatResult, hc]

/-- C4 witness: category `"news"`, raw result supplying a thumbnail. -/
theorem C4_witness :
    (formatResult { thumbnail := some "http://t/1" } "images").thumbnail = some "http://t/1" ∧
    (formatResult { thumbnail := some "http://t/1" } "news").thumbnail = none ∧
    (∀ s ∈ format_results { results := [{ thumbnail := some "http://t/1" }] } "news",
      s.thumbnail = none) :=
  C4_thumbnail_gating { thumbnail := some "http://t/1" } "news"
    { results := [{ thumbnail := some "http://t/1" }] } (by decide)

/-- C7: `/health` reports overall `"healthy"` exactly when the upstream
probe returns HTTP 200, and `"degraded"` in every other case (non-200
response or raised exception), whatever the cache-store probe finds. -/
theorem C7_health_status (redisUrlSet redis_client : Bool) (probe : ProbeOutcome)
    (ping : Bool) :
    ((health redisUrlSet redis_client probe ping).status = "healthy" ↔
      probe = .response 200) ∧
    (probe ≠ .response 200 →
      (health redisUrlSet redis_client probe ping).status = "degraded") := by
  cases probe with
  | response code =>
    by_cases h200 : code = 200
    · subst h200
      simp [health]
    · constructor
      · constructor
        · intro h
          exfalso
          simp [health, h200] at h
        · intro h
          cases h
          exact absurd rfl h200
      · intro _
        simp [health, h200]
  | exc =>
    constructor
    · constructor
      · intro h
        exfalso
        simp [health] at h
      · intro h
        cases h
    · intro _
      simp [health]

/-- C7 witness: concrete probes, healthy and degraded. -/
theorem C7_witness :
    (health true true .exc true).status = "degraded" ∧
    (health true true (.response 200) true).status = "healthy" :=
  ⟨(C7_health_status true true .exc true).2 (by simp),
    (C7_health_status true true (.response 200) true).1.mpr rfl⟩

/-- C10: on a cache hit the `/search` handler returns the stored response
with only the `cached` flag turned on, for any upstream behaviour at all
(no upstream query), and the cache state is returned unchanged (no write
occurs on a hit). -/
theorem C10_hit_frame (ctx : CacheCtx) (st : CacheState) (q : String)
    (limit safesearch : Nat) (language : String) (data : SearchResponse)
    (h : cache_get ctx st (searchKey q limit safesearch language) = .ok (some data)) :
    ∀ (net : Network) (url : String),
      search ctx st net url q limit safesearch language =
        .ok ({ data with cached := true }, st) :=
  fun net url => search_hit ctx st net url q limit safesearch language data h

/-- C10 witness: in-memory cache holding exactly the request's key. -/
theorem C10_witness :
    search ⟨false⟩
          ⟨.up [],
            [(searchKey "python" 10 1 "en",
              { query := "python", results := [], total := 0, time := 0,
                  cached := false, engines := [] })]⟩
          (fun _ _ => .ok {}) "http://localhost:8080" "python" 10 1 "en" =
        .ok
          ({ query := "python", results := [], total := 0, time := 0,
              cached := true, engines := [] },
            ⟨.up [],
              [(searchKey "python" 10 1 "en",
                { query := "python", results := [], total := 0, time := 0,
                    cached := false, engines := [] })]⟩) :=
  C10_hit_frame ⟨false⟩
    ⟨.up [],
      [(searchKey "python" 10 1 "en",
        { query := "python", results := [], total := 0, time := 0,
            cached := false, engines := [] })]⟩
    "python" 10 1 "en"
    { query := "python", results := [], total := 0, time := 0,
        cached := false, engines := [] }
    (by simp [cache_get, lookup]) (fun _ _ => .ok {}) "http://localhost:8080"

/-! # Claims C5, C6, C8, C9 (corrected) -/

/-- A `/search` request served by the in-memory cache (no Redis client)
succeeds, surfaces the upstream 503, or dies on the `json.dumps`
`TypeError`; no other outcome — in particular no cache-layer error —
exists. -/
theorem search_memory_total (st : CacheState) (net : Network) (url q : String)
    (limit safesearch : Nat) (language : String) :
    (∃ r st', search ⟨false⟩ st net url q limit safesearch language = .ok (r, st')) ∨
    (∃ e, search ⟨false⟩ st net url q limit safesearch language =
      .error (.http 503 ("Search service unavailable: " ++ e))) ∨
    search ⟨false⟩ st net url q limit safesearch language =
      .error .serializationTypeError := by
  have hread : cache_get ⟨false⟩ st (searchKey q limit safesearch language) =
      .ok (lookup st.memory (searchKey q limit safesearch language)) := rfl
  cases hl : lookup st.memory (searchKey q limit safesearch language) with
  | some d =>
    exact .inl ⟨_, _, search_hit ⟨false⟩ st net url q limit safesearch language d
      (by rw [hread, hl])⟩
  | none =>
    cases hn : net url (searchParams q safesearch language) with
    | ok data =>
      by_cases hser : (format_results data "general").take limit = []
      · obtain ⟨st', hset, -⟩ := cache_roundtrip ⟨false⟩ st
          (searchKey q limit safesearch language) none
          (buildResponse q limit "general" data) CACHE_TTL (by rw [hread, hl])
        exact .inl ⟨_, _, search_miss ⟨false⟩ st net url q limit safesearch language
          data st' (by rw [hread, hl]) hn hser hset⟩
      · exact .inr (.inr (search_miss_typeError ⟨false⟩ st net url q limit safesearch
          language data (by rw [hread, hl]) hn hser))
    | error e =>
      exact .inr (.inl ⟨e, search_upstream_fail ⟨false⟩ st net url q limit safesearch
        language e (by rw [hread, hl]) hn⟩)

/-- C5 counterexample: with a pool of two endpoints where the configured
(first-attempted) `instance-a` always fails and `instance-b` always
succeeds, the code surfaces a 503 — the caller observes a failure and
never receives `instance-b`'s result — while the spec's dispatcher would
return `instance-b`'s result. -/
theorem C5_counterexample :
    search ⟨false⟩ ⟨.up [], []⟩ poolNetAB "http://instance-a" "python" 10 1 "en" =
      .error (.http 503 "Search service unavailable: connection refused") ∧
    spec_dispatch ["http://instance-a", "http://instance-b"] poolNetAB
        (searchParams "python" 1 "en") =
      .ok { results := [{ title := some "from-b", url := some "http://b/1" }] } :=
  ⟨rfl, rfl⟩

/-- C5 amended: the code queries a single configured endpoint rather than
a pool.  The handler's outcome depends only on the configured URL's
behaviour (no other endpoint is consulted); on a cache miss it returns the
configured endpoint's formatted result when that endpoint succeeds and
the response serializes (empty result list — otherwise the request dies
on the uncaught `json.dumps` `TypeError`, the C2/C3 code bug), and a 503
when it fails. -/
theorem C5_amended (ctx : CacheCtx) (st : CacheState) (net net' : Network)
    (url q : String) (limit safesearch : Nat) (language : String)
    (data : UpstreamData) (e : String)
    (hagree : ∀ p, net url p = net' url p) :
    (search ctx st net url q limit safesearch language =
      search ctx st net' url q limit safesearch language) ∧
    (cache_get ctx st (searchKey q limit safesearch language) = .ok none →
      net url (searchParams q safesearch language) = .ok data →
      data.results = [] →
      ∃ st', search ctx st net url q limit safesearch language =
        .ok (buildResponse q limit "general" data, st')) ∧
    (cache_get ctx st (searchKey q limit safesearch language) = .ok none →
      net url (searchParams q safesearch language) = .error e →
      search ctx st net url q limit safesearch language =
        .error (.http 503 ("Search service unavailable: " ++ e))) := by
  refine ⟨?_, ?_, ?_⟩
  · simp only [search, search_searxng, hagree]
  · intro h1 h2 hres
    obtain ⟨st', hset, -⟩ := cache_roundtrip ctx st
      (searchKey q limit safesearch language) none
      (buildResponse q limit "general" data) CACHE_TTL h1
    exact ⟨st', search_miss ctx st net url q limit safesearch language data st' h1 h2
      (by simp [format_results, hres]) hset⟩
  · exact search_upstream_fail ctx st net url q limit safesearch language e

/-- C5 witness: the single configured endpoint failing yields the 503. -/
theorem C5_witness :
    search ⟨false⟩ ⟨.up [], []⟩ (fun _ _ => .error "boom") "http://localhost:8080"
        "python" 10 1 "en" =
      .error (.http 503 ("Search service unavailable: " ++ "boom")) :=
  (C5_amended ⟨false⟩ ⟨.up [], []⟩ (fun _ _ => .error "boom") (fun _ _ => .error "boom")
    "http://localhost:8080" "python" 10 1 "en" {} "boom" (fun _ => rfl)).2.2 rfl rfl

/-- C6 counterexample: with a pool of two endpoints that both fail, the
code's 503 carries the single decorated message of the configured endpoint
only — `instance-b`'s message `"errB"` appears nowhere in the surfaced
detail — whereas the spec's dispatcher (both endpoints attempted, 2 ≤ the
cap of 5) raises the aggregate list with one message per attempted
endpoint. -/
theorem C6_counterexample :
    search ⟨false⟩ ⟨.up [], []⟩ poolNetFail "http://instance-a" "python" 10 1 "en" =
      .error (.http 503 "Search service unavailable: errA") ∧
    spec_dispatch ["http://instance-a", "http://instance-b"] poolNetFail
        (searchParams "python" 1 "en") = .error ["errA", "errB"] ∧
    containsSeq "errB".data "Search service unavailable: errA".data = false := by
  refine ⟨rfl, rfl, by decide⟩

/-- C6 amended: when the (single) configured upstream fails, the handler
surfaces a 503 whose detail is the one string
`"Search service unavailable: " ++ e` built from that instance's error;
one upstream attempt is made per request, so there is no aggregate list
and no attempt cap in the code. -/
theorem C6_amended (ctx : CacheCtx) (st : CacheState) (net : Network)
    (url q : String) (limit safesearch : Nat) (language : String) (e : String)
    (h1 : cache_get ctx st (searchKey q limit safesearch language) = .ok none)
    (h2 : net url (searchParams q safesearch language) = .error e) :
    search ctx st net url q limit safesearch language =
      .error (.http 503 ("Search service unavailable: " ++ e)) :=
  search_upstream_fail ctx st net url q limit safesearch language e h1 h2

/-- C6 witness: concrete failing upstream. -/
theorem C6_witness :
    search ⟨false⟩ ⟨.up [], []⟩ (fun _ _ => .error "connect timeout")
        "http://localhost:8080" "python" 10 1 "en" =
      .error (.http 503 ("Search service unavailable: " ++ "connect timeout")) :=
  C6_amended ⟨false⟩ ⟨.up [], []⟩ (fun _ _ => .error "connect timeout")
    "http://localhost:8080" "python" 10 1 "en" "connect timeout" rfl rfl

/-- C8 counterexample: with a Redis client retained at startup
(`REDIS_URL` set, store reachable then) and the store unreachable at
request time, the uncaught Redis exception aborts the `/search` request —
cache unavailability does fail the request. -/
theorem C8_counterexample :
    startupRedisClient true true = ⟨true⟩ ∧
    search ⟨true⟩ ⟨.down, []⟩ (fun _ _ => .ok {}) "http://localhost:8080"
        "python" 10 1 "en" = .error (.internal .connectionError) :=
  ⟨rfl, rfl⟩

/-- C8 amended: the silent fallback exists only at startup: if the store
was unreachable (or unconfigured) at startup, no Redis client is kept, the
in-process map serves every request, and no cache-layer exception is ever
surfaced; but with a retained client a request-time store outage is
uncaught (see the counterexample). -/
theorem C8_amended (redisUrlSet : Bool) (st : CacheState) (net : Network)
    (url q : String) (limit safesearch : Nat) (language : String) :
    startupRedisClient redisUrlSet false = ⟨false⟩ ∧
    ∀ e, search ⟨false⟩ st net url q limit safesearch language ≠
      .error (.internal e) := by
  refine ⟨by simp [startupRedisClient], fun e h => ?_⟩
  rcases search_memory_total st net url q limit safesearch language with
    ⟨r, st', hok⟩ | ⟨e', herr⟩ | hser
  · rw [hok] at h
    exact absurd h (by simp)
  · rw [herr] at h
    simp at h
  · rw [hser] at h
    simp at h

/-- C8 witness: a concrete request against the in-memory fallback. -/
theorem C8_witness :
    startupRedisClient true false = ⟨false⟩ ∧
    search ⟨false⟩ ⟨.up [], []⟩ (fun _ _ => .ok {}) "http://localhost:8080"
        "python" 10 1 "en" ≠ .error (.internal .connectionError) :=
  ⟨(C8_amended true ⟨.up [], []⟩ (fun _ _ => .ok {}) "http://localhost:8080"
      "python" 10 1 "en").1,
    (C8_amended true ⟨.up [], []⟩ (fun _ _ => .ok {}) "http://localhost:8080"
      "python" 10 1 "en").2 .connectionError⟩

/-- C9 counterexample: `/images` does not accept a `language` parameter —
two requests that differ only in `language` are handled identically (the
handler declares no such parameter, so FastAPI ignores it), while the same
two requests to `/search` produce different responses against an upstream
that echoes the language it was sent. -/
theorem C9_counterexample :
    images_endpoint ⟨"cat", some 5, some 1, some "de"⟩ ⟨false⟩ ⟨.up [], []⟩
        langProbeNet "http://localhost:8080" =
      images_endpoint ⟨"cat", some 5, some 1, some "fr"⟩ ⟨false⟩ ⟨.up [], []⟩
        langProbeNet "http://localhost:8080" ∧
    respOf (search_endpoint ⟨"cat", some 5, some 1, some "de"⟩ ⟨false⟩ ⟨.up [], []⟩
        langProbeNet "http://localhost:8080") ≠
      respOf (search_endpoint ⟨"cat", some 5, some 1, some "fr"⟩ ⟨false⟩ ⟨.up [], []⟩
        langProbeNet "http://localhost:8080") := by
  refine ⟨rfl, by decide⟩

/-- C9 amended: `/images` accepts `q`, `limit` and `safesearch` like
`/search`, with default limit 20 and the `images` category, but no
`language` parameter: requests differing only in `language` are treated
identically, the upstream query always carries `language="en"`, and the
cache key has no `lang` entry.  (The success conjunct is stated for a
serializable — empty — result list; a non-empty list dies on the
`json.dumps` `TypeError`, the C2/C3 code bug.) -/
theorem C9_amended (q : String) (ss : Option Nat) (lg lg' : Option String)
    (ctx : CacheCtx) (st : CacheState) (net : Network) (url : String)
    (data : UpstreamData)
    (h1 : cache_get ctx st (imagesKey q 20 (ss.getD 1)) = .ok none)
    (h2 : net url (imagesParams q (ss.getD 1)) = .ok data)
    (hres : data.results = []) :
    (∀ lim, images_endpoint ⟨q, lim, ss, lg⟩ ctx st net url =
      images_endpoint ⟨q, lim, ss, lg'⟩ ctx st net url) ∧
    ∃ st', images_endpoint ⟨q, none, ss, lg⟩ ctx st net url =
      .ok (buildResponse q 20 "images" data, st') := by
  refine ⟨fun lim => rfl, ?_⟩
  obtain ⟨st', hset, -⟩ := cache_roundtrip ctx st (imagesKey q 20 (ss.getD 1)) none
    (buildResponse q 20 "images" data) CACHE_TTL h1
  exact ⟨st', images_miss ctx st net url q 20 (ss.getD 1) data st' h1 h2
    (by simp [format_results, hres]) hset⟩

/-- C9 witness: concrete `/images` request with `limit` left to its
default. -/
theorem C9_witness :
    (∀ lim, images_endpoint ⟨"cat", lim, some 1, some "de"⟩ ⟨false⟩ ⟨.up [], []⟩
        (fun _ _ => .ok {}) "http://localhost:8080" =
      images_endpoint ⟨"cat", lim, some 1, some "fr"⟩ ⟨false⟩ ⟨.up [], []⟩
        (fun _ _ => .ok {}) "http://localhost:8080") ∧
    ∃ st', images_endpoint ⟨"cat", none, some 1, some "de"⟩ ⟨false⟩ ⟨.up [], []⟩
        (fun _ _ => .ok {}) "http://localhost:8080" =
      .ok (buildResponse "cat" 20 "images" {}, st') :=
  C9_amended "cat" (some 1) (some "de") (some "fr") ⟨false⟩ ⟨.up [], []⟩
    (fun _ _ => .ok {}) "http://localhost:8080" {} rfl rfl rfl

/-! # Key derivation: order invariance (C1, part 1) -/

theorem lexLe_total (a b : List Nat) : lexLe a b = true ∨ lexLe b a = true := by
  induction a generalizing b with
  | nil => exact .inl rfl
  | cons x as ih =>
    cases b with
    | nil => exact .inr rfl
    | cons y bs =>
      rcases Nat.lt_trichotomy x y with h | h | h
      · exact .inl (by simp [lexLe, h])
      · subst h
        rcases ih bs with hab | hba
        · exact .inl (by simp [lexLe, hab])
        · exact .inr (by simp [lexLe, hba])
      · exact .inr (by simp [lexLe, h])

theorem lexLe_trans (a b c : List Nat) (h1 : lexLe a b = true)
    (h2 : lexLe b c = true) : lexLe a c = true := by
  induction a generalizing b c with
  | nil => rfl
  | cons x as ih =>
    cases b with
    | nil => simp [lexLe] at h1
    | cons y bs =>
      cases c with
      | nil => simp [lexLe] at h2
      | cons z cs =>
        by_cases hxy : x < y
        · by_cases hyz : y < z
          · simp [lexLe, show x < z by omega]
          · by_cases hyez : y = z
            · simp [lexLe, show x < z by omega]
            · simp [lexLe, hyz, hyez] at h2
        · by_cases hxey : x = y
          · subst hxey
            simp only [lexLe, Nat.lt_irrefl, if_false, if_pos rfl] at h1
            by_cases hyz : x < z
            · simp [lexLe, hyz]
            · by_cases hyez : x = z
              · subst hyez
                simp only [lexLe, Nat.lt_irrefl, if_false, if_pos rfl] at h2 ⊢
                exact ih bs cs h1 h2
              · simp [lexLe, hyz, hyez] at h2
          · simp [lexLe, hxy, hxey] at h1

theorem lexLe_antisymm (a b : List Nat) (h1 : lexLe a b = true)
    (h2 : lexLe b a = true) : a = b := by
  induction a generalizing b with
  | nil =>
    cases b with
    | nil => rfl
    | cons y bs => simp [lexLe] at h2
  | cons x as ih =>
    cases b with
    | nil => simp [lexLe] at h1
    | cons y bs =>
      by_cases hxy : x < y
      · simp [lexLe, show ¬ y < x by omega, show y ≠ x by omega] at h2
      · by_cases hxey : x = y
        · subst hxey
          simp only [lexLe, Nat.lt_irrefl, if_false, if_pos rfl] at h1 h2
          rw [ih bs h1 h2]
        · simp [lexLe, hxy, hxey] at h1

theorem charToNat_inj : Function.Injective Char.toNat := fun _ _ h =>
  Char.ext (UInt32.eq_of_val_eq (Fin.eq_of_val_eq h))

theorem string_data_inj {s t : String} (h : s.data = t.data) : s = t := by
  cases s
  cases t
  exact congrArg String.mk h

theorem keyLe_total (s t : String) : keyLe s t = true ∨ keyLe t s = true :=
  lexLe_total _ _

theorem keyLe_antisymm (s t : String) (h1 : keyLe s t = true)
    (h2 : keyLe t s = true) : s = t :=
  string_data_inj (List.map_injective_iff.mpr charToNat_inj (lexLe_antisymm _ _ h1 h2))

instance : IsTotal (String × JVal) (fun a b => keyLe a.1 b.1 = true) :=
  ⟨fun a b => keyLe_total a.1 b.1⟩

instance : IsTrans (String × JVal) (fun a b => keyLe a.1 b.1 = true) :=
  ⟨fun _ _ _ h1 h2 => lexLe_trans _ _ _ h1 h2⟩

instance : IsAntisymm (String × JVal) (fun a b => keyLe a.1 b.1 = true ∧ a.1 ≠ b.1) :=
  ⟨fun _ _ h1 h2 => absurd (keyLe_antisymm _ _ h1.1 h2.1) h1.2⟩

/-- With pairwise-distinct keys (Python `**kwargs` guarantee), the sorted
entry list is the same for any supply order of the kwargs. -/
theorem sortKwargs_eq_of_perm (l₁ l₂ : List (String × JVal)) (hp : l₁.Perm l₂)
    (hn : (l₁.map Prod.fst).Nodup) : sortKwargs l₁ = sortKwargs l₂ := by
  have hp₁ : (sortKwargs l₁).Perm l₁ := List.perm_insertionSort _ _
  have hp₂ : (sortKwargs l₂).Perm l₂ := List.perm_insertionSort _ _
  have hperm : (sortKwargs l₁).Perm (sortKwargs l₂) := hp₁.trans (hp.trans hp₂.symm)
  have hn₁ : ((sortKwargs l₁).map Prod.fst).Nodup :=
    ((hp₁.map Prod.fst).nodup_iff).mpr hn
  have hn₂ : ((sortKwargs l₂).map Prod.fst).Nodup :=
    ((hperm.map Prod.fst).nodup_iff).mp hn₁
  have hlt₁ : (sortKwargs l₁).Pairwise (fun a b => keyLe a.1 b.1 = true ∧ a.1 ≠ b.1) :=
    List.Pairwise.and
      (List.sorted_insertionSort (fun a b : String × JVal => keyLe a.1 b.1 = true) l₁)
      (List.pairwise_map.mp hn₁)
  have hlt₂ : (sortKwargs l₂).Pairwise (fun a b => keyLe a.1 b.1 = true ∧ a.1 ≠ b.1) :=
    List.Pairwise.and
      (List.sorted_insertionSort (fun a b : String × JVal => keyLe a.1 b.1 = true) l₂)
      (List.pairwise_map.mp hn₂)
  exact List.eq_of_perm_of_sorted hperm hlt₁ hlt₂

/-- The cache key is invariant under reordering of the kwargs. -/
theorem get_cache_key_perm (q c : String) (kw₁ kw₂ : List (String × JVal))
    (hp : kw₁.Perm kw₂) (hn : (kw₁.map Prod.fst).Nodup) :
    get_cache_key q c kw₁ = get_cache_key q c kw₂ := by
  unfold get_cache_key keyData dumps
  rw [sortKwargs_eq_of_perm kw₁ kw₂ hp hn]

/-! # Key derivation: the digest has finite range (C1, part 2) -/

theorem toBytesLE_lt (w : Nat) : ∀ b ∈ toBytesLE w, b < 256 := by
  intro b hb
  simp [toBytesLE] at hb
  rcases hb with h | h | h | h <;> omega

theorem md5_length (msg : List Nat) : (md5 msg).length = 16 := by
  simp [md5, toBytesLE]

theorem md5_bytes_lt (msg : List Nat) : ∀ b ∈ md5 msg, b < 256 := by
  intro b hb
  simp only [md5, List.mem_append] at hb
  rcases hb with ((h | h) | h) | h <;> exact toBytesLE_lt _ b h

/-- Equal digest vectors mean equal digests. -/
theorem md5_eq_of_digestVec_eq (m₁ m₂ : List Nat)
    (h : digestVec m₁ = digestVec m₂) : md5 m₁ = md5 m₂ := by
  apply List.ext_getElem (by rw [md5_length, md5_length])
  intro n h₁ h₂
  have hn : n < 16 := by rwa [md5_length] at h₁
  have hfun := congrFun h ⟨n, hn⟩
  simp only [digestVec, Fin.mk.injEq] at hfun
  have b₁ : (md5 m₁)[n] < 256 := md5_bytes_lt m₁ _ (List.getElem_mem h₁)
  have b₂ : (md5 m₂)[n] < 256 := md5_bytes_lt m₂ _ (List.getElem_mem h₂)
  rw [List.getD_eq_getElem _ _ h₁, List.getD_eq_getElem _ _ h₂] at hfun
  omega

/-! # Claim C1 -/

/-- C1 counterexample: the distinctness half of C1 is false as stated —
the cache key compresses an infinite space of `language` strings into the
finite range of an md5 hex digest, so two different language values (all
other parameters held fixed) must share a cache key.  (The proof is the
pigeonhole principle; the colliding pair is not exhibited.) -/
theorem C1_counterexample :
    ¬ ∀ g₁ g₂ : String, g₁ ≠ g₂ →
      get_cache_key "python" "general"
          [("limit", .num 10), ("safesearch", .num 1), ("lang", .str g₁)] ≠
        get_cache_key "python" "general"
          [("limit", .num 10), ("safesearch", .num 1), ("lang", .str g₂)] := by
  intro hinj
  obtain ⟨n, m, hnm, heq⟩ := Finite.exists_ne_map_eq_of_infinite
    (fun n : ℕ => digestVec (utf8Encode (keyData "python" "general"
      [("limit", .num 10), ("safesearch", .num 1),
        ("lang", .str (String.mk (List.replicate n 'a')))])))
  have hgs : String.mk (List.replicate n 'a') ≠ String.mk (List.replicate m 'a') := by
    intro h
    apply hnm
    have hlen := congrArg (fun s : String => s.data.length) h
    simpa using hlen
  exact hinj _ _ hgs
    (congrArg (fun l => String.mk ("search:".data ++ hexdigest l))
      (md5_eq_of_digestVec_eq _ _ heq))

/-! # Key derivation: the pre-hash key material is injective (C1, part 3)

The serialized dict is uniquely decodable: a `P`-classified segment ends at
the first non-`P` character, an escaped string body at its closing quote. -/

/-- Splitting an equation at the first character failing `P`. -/
theorem split_at_stop (P : Char → Prop) (x₁ : List Char) :
    ∀ (x₂ r₁ r₂ : List Char), x₁ ++ r₁ = x₂ ++ r₂ →
    (∀ c ∈ x₁, P c) → (∀ c ∈ x₂, P c) →
    (∀ c, r₁.head? = some c → ¬ P c) → (∀ c, r₂.head? = some c → ¬ P c) →
    x₁ = x₂ ∧ r₁ = r₂ := by
  induction x₁ with
  | nil =>
    intro x₂ r₁ r₂ h _ hx₂ hr₁ _
    cases x₂ with
    | nil => exact ⟨rfl, h⟩
    | cons y t =>
      exact absurd (hx₂ y (by simp)) (hr₁ y (by rw [show r₁ = y :: (t ++ r₂) from h]; rfl))
  | cons x t ih =>
    intro x₂ r₁ r₂ h hx₁ hx₂ hr₁ hr₂
    cases x₂ with
    | nil =>
      exact absurd (hx₁ x (by simp))
        (hr₂ x (by rw [show r₂ = x :: (t ++ r₁) from h.symm]; rfl))
    | cons y u =>
      rw [List.cons_append, List.cons_append] at h
      obtain ⟨hxy, ht⟩ := List.cons.inj h
      obtain ⟨he, hr⟩ := ih u r₁ r₂ ht (fun c hc => hx₁ c (by simp [hc]))
        (fun c hc => hx₂ c (by simp [hc])) hr₁ hr₂
      exact ⟨by rw [hxy, he], hr⟩

theorem repNat_digits (n : Nat) : ∀ c ∈ repNat n, isDigitCh c := by
  have H : ∀ k < 10, isDigitCh (hexDigit k) := by decide
  intro c hc
  unfold repNat at hc
  by_cases h0 : n = 0
  · simp [h0] at hc
    subst hc
    decide
  · simp only [h0, if_false, List.mem_map, List.mem_reverse] at hc
    obtain ⟨d, hd, rfl⟩ := hc
    exact H d (Nat.digits_lt_base (by omega) hd)

theorem map_hexDigit_inj (l₁ : List Nat) :
    ∀ l₂ : List Nat, (∀ d ∈ l₁, d < 10) → (∀ d ∈ l₂, d < 10) →
    l₁.map hexDigit = l₂.map hexDigit → l₁ = l₂ := by
  have H : ∀ a < 10, ∀ b < 10, hexDigit a = hexDigit b → a = b := by decide
  induction l₁ with
  | nil =>
    intro l₂ _ _ h
    cases l₂ with
    | nil => rfl
    | cons y u => simp at h
  | cons x t ih =>
    intro l₂ h₁ h₂ h
    cases l₂ with
    | nil => simp at h
    | cons y u =>
      simp only [List.map_cons, List.cons.injEq] at h
      rw [H x (h₁ x (by simp)) y (h₂ y (by simp)) h.1,
        ih u (fun d hd => h₁ d (by simp [hd])) (fun d hd => h₂ d (by simp [hd])) h.2]

theorem repNat_inj (n₁ n₂ : Nat) (h : repNat n₁ = repNat n₂) : n₁ = n₂ := by
  have digitsOf : ∀ n : Nat, n ≠ 0 →
      repNat n = ((Nat.digits 10 n).reverse.map hexDigit) := by
    intro n hn
    simp [repNat, hn]
  have zeroCase : ∀ n : Nat, n ≠ 0 → repNat n ≠ ['0'] := by
    intro n hn hcon
    rw [digitsOf n hn] at hcon
    rcases hrev : (Nat.digits 10 n).reverse with - | ⟨d, ds⟩
    · exact (Nat.digits_ne_nil_iff_ne_zero.mpr hn) (by
        have := congrArg List.reverse hrev
        simpa using this)
    · rw [hrev] at hcon
      simp only [List.map_cons, List.cons.injEq] at hcon
      obtain ⟨hd0, hds⟩ := hcon
      have hds' : ds = [] := by
        cases ds with
        | nil => rfl
        | cons a b => simp at hds
      have hdmem : d ∈ Nat.digits 10 n := List.mem_reverse.mp (by rw [hrev]; simp)
      have hdlt : d < 10 := Nat.digits_lt_base (by omega) hdmem
      have hd0' : d = 0 := by
        have H : ∀ k < 10, hexDigit k = '0' → k = 0 := by decide
        exact H d hdlt hd0
      have hdig : Nat.digits 10 n = [0] := by
        have := congrArg List.reverse hrev
        simpa [hds', hd0'] using this
      have := Nat.ofDigits_digits 10 n
      rw [hdig] at this
      simp [Nat.ofDigits] at this
      exact hn this.symm
  by_cases h₁ : n₁ = 0 <;> by_cases h₂ : n₂ = 0
  · omega
  · exact absurd (by rw [← h, h₁]; rfl) (zeroCase n₂ h₂)
  · exact absurd (by rw [h, h₂]; rfl) (zeroCase n₁ h₁)
  · rw [digitsOf n₁ h₁, digitsOf n₂ h₂] at h
    have hrev := map_hexDigit_inj (Nat.digits 10 n₁).reverse (Nat.digits 10 n₂).reverse
      (fun d hd => Nat.digits_lt_base (by omega) (List.mem_reverse.mp hd))
      (fun d hd => Nat.digits_lt_base (by omega) (List.mem_reverse.mp hd)) h
    have hdig : Nat.digits 10 n₁ = Nat.digits 10 n₂ := by
      have := congrArg List.reverse hrev
      simpa using this
    rw [← Nat.ofDigits_digits 10 n₁, ← Nat.ofDigits_digits 10 n₂, hdig]

/-- Splitting an equation of decimal segments at a non-digit stop. -/
theorem rep_split (n₁ n₂ : Nat) (c₁ c₂ : Char) (r₁ r₂ : List Char)
    (hc₁ : ¬ isDigitCh c₁) (hc₂ : ¬ isDigitCh c₂)
    (h : repNat n₁ ++ c₁ :: r₁ = repNat n₂ ++ c₂ :: r₂) :
    n₁ = n₂ ∧ c₁ :: r₁ = c₂ :: r₂ := by
  obtain ⟨he, hr⟩ := split_at_stop isDigitCh (repNat n₁) (repNat n₂) (c₁ :: r₁) (c₂ :: r₂)
    h (repNat_digits n₁) (repNat_digits n₂)
    (fun c hc => by rw [show c = c₁ from (by simpa using hc : c₁ = c).symm]; exact hc₁)
    (fun c hc => by rw [show c = c₂ from (by simpa using hc : c₂ = c).symm]; exact hc₂)
  exact ⟨repNat_inj n₁ n₂ he, hr⟩

/-! # Key derivation: decoding the escaped serialization (C1, part 3) -/

theorem hexVal_hexDigit (k : Nat) (h : k < 16) : hexVal (hexDigit k) = some k := by
  have H : ∀ j < 16, hexVal (hexDigit j) = some j := by decide
  exact H k h

theorem hexVal4_hex4 (n : Nat) (h : n < 65536) :
    hexVal4 (hexDigit (n / 4096 % 16)) (hexDigit (n / 256 % 16))
      (hexDigit (n / 16 % 16)) (hexDigit (n % 16)) = some n := by
  rw [hexVal4, hexVal_hexDigit (n / 4096 % 16) (Nat.mod_lt _ (by omega)),
    hexVal_hexDigit (n / 256 % 16) (Nat.mod_lt _ (by omega)),
    hexVal_hexDigit (n / 16 % 16) (Nat.mod_lt _ (by omega)),
    hexVal_hexDigit (n % 16) (Nat.mod_lt _ (by omega))]
  have harith : 4096 * (n / 4096 % 16) + 256 * (n / 256 % 16) + 16 * (n / 16 % 16) + n % 16 = n := by
    omega
  dsimp only
  rw [harith]

theorem readU_single (h1 h2 h3 h4 : Char) (m : Nat) (z : List Char)
    (hv : hexVal4 h1 h2 h3 h4 = some m) (hm : m < 55296 ∨ 57343 < m) :
    readU (h1 :: h2 :: h3 :: h4 :: z) = some (m, z) := by
  simp only [readU, hv]
  rw [if_pos hm]

theorem readPair_cons (nn m : Nat) (g1 g2 g3 g4 : Char) (z : List Char)
    (hv : hexVal4 g1 g2 g3 g4 = some m) (hm : 56320 ≤ m ∧ m ≤ 57343) :
    readPair nn ('\\' :: 'u' :: g1 :: g2 :: g3 :: g4 :: z) =
      some (65536 + (nn - 55296) * 1024 + (m - 56320), z) := by
  simp only [readPair, hv]
  rw [if_pos (show True ∧ True from ⟨trivial, trivial⟩), if_pos hm]

theorem readU_pair (h1 h2 h3 h4 g1 g2 g3 g4 : Char) (nH nL : Nat) (z : List Char)
    (hvH : hexVal4 h1 h2 h3 h4 = some nH) (hH : 55296 ≤ nH ∧ nH ≤ 56319)
    (hvL : hexVal4 g1 g2 g3 g4 = some nL) (hL : 56320 ≤ nL ∧ nL ≤ 57343) :
    readU (h1 :: h2 :: h3 :: h4 :: '\\' :: 'u' :: g1 :: g2 :: g3 :: g4 :: z) =
      some (65536 + (nH - 55296) * 1024 + (nL - 56320), z) := by
  simp only [readU, hvH]
  rw [if_neg (by omega), if_pos (by omega : nH ≤ 56319)]
  exact readPair_cons nH nL g1 g2 g3 g4 z hvL hL

theorem readEsc_u (t : List Char) (n : Nat) (z : List Char)
    (h : readU t = some (n, z)) : readEsc ('u' :: t) = some (n, z) := by
  simp [readEsc, h]

theorem readEsc_short (e : Char) (u : Nat) (z : List Char) (he : e ≠ 'u')
    (hu : unesc e = some u) : readEsc (e :: z) = some (u, z) := by
  simp [readEsc, he, hu]

theorem decF_quote (f : Nat) (r : List Char) : decF (f + 1) ('"' :: r) = some ([], r) := by
  simp [decF]

theorem decF_plain (f : Nat) (c : Char) (z : List Char) (h1 : c ≠ '"') (h2 : c ≠ '\\') :
    decF (f + 1) (c :: z) = (decF f z).map fun p => (c.toNat :: p.1, p.2) := by
  simp [decF, h1, h2]

theorem decF_esc (f u : Nat) (t z : List Char) (h : readEsc t = some (u, z)) :
    decF (f + 1) ('\\' :: t) = (decF f z).map fun p => (u :: p.1, p.2) := by
  simp [decF, h]

theorem char_valid_nat (c : Char) :
    c.toNat < 55296 ∨ (57343 < c.toNat ∧ c.toNat < 1114112) := by
  have h := c.valid
  unfold UInt32.isValidChar Nat.isValidChar at h
  exact h

theorem decF_escChar (f : Nat) (c : Char) (z : List Char) :
    decF (f + 1) (escChar c ++ z) = (decF f z).map fun p => (c.toNat :: p.1, p.2) := by
  have hv := char_valid_nat c
  by_cases h1 : c = '"'
  · subst h1
    exact decF_esc f 34 ('"' :: z) z (readEsc_short '"' 34 z (by decide) rfl)
  by_cases h2 : c = '\\'
  · subst h2
    exact decF_esc f 92 ('\\' :: z) z (readEsc_short '\\' 92 z (by decide) rfl)
  by_cases h3 : c.toNat = 8
  · rw [charToNat_inj (show c.toNat = ('\x08').toNat from h3)]
    exact decF_esc f 8 ('b' :: z) z (readEsc_short 'b' 8 z (by decide) rfl)
  by_cases h4 : c.toNat = 9
  · rw [charToNat_inj (show c.toNat = ('\t').toNat from h4)]
    exact decF_esc f 9 ('t' :: z) z (readEsc_short 't' 9 z (by decide) rfl)
  by_cases h5 : c.toNat = 10
  · rw [charToNat_inj (show c.toNat = ('\n').toNat from h5)]
    exact decF_esc f 10 ('n' :: z) z (readEsc_short 'n' 10 z (by decide) rfl)
  by_cases h6 : c.toNat = 12
  · rw [charToNat_inj (show c.toNat = ('\x0C').toNat from h6)]
    exact decF_esc f 12 ('f' :: z) z (readEsc_short 'f' 12 z (by decide) rfl)
  by_cases h7 : c.toNat = 13
  · rw [charToNat_inj (show c.toNat = ('\r').toNat from h7)]
    exact decF_esc f 13 ('r' :: z) z (readEsc_short 'r' 13 z (by decide) rfl)
  by_cases h8 : c.toNat < 32
  · rw [show escChar c = '\\' :: 'u' :: hex4 c.toNat from by
      simp [escChar, h1, h2, h3, h4, h5, h6, h7, h8]]
    exact decF_esc f c.toNat ('u' :: (hex4 c.toNat ++ z)) z
      (readEsc_u (hex4 c.toNat ++ z) c.toNat z
        (readU_single (hexDigit (c.toNat / 4096 % 16)) (hexDigit (c.toNat / 256 % 16))
          (hexDigit (c.toNat / 16 % 16)) (hexDigit (c.toNat % 16)) c.toNat z
          (hexVal4_hex4 c.toNat (by omega)) (by omega)))
  by_cases h9 : c.toNat < 127
  · rw [show escChar c = [c] from by
      simp [escChar, h1, h2, h3, h4, h5, h6, h7, h8, h9]]
    exact decF_plain f c z h1 h2
  by_cases h10 : c.toNat < 65536
  · rw [show escChar c = '\\' :: 'u' :: hex4 c.toNat from by
      simp [escChar, h1, h2, h3, h4, h5, h6, h7, h8, h9, h10]]
    exact decF_esc f c.toNat ('u' :: (hex4 c.toNat ++ z)) z
      (readEsc_u (hex4 c.toNat ++ z) c.toNat z
        (readU_single (hexDigit (c.toNat / 4096 % 16)) (hexDigit (c.toNat / 256 % 16))
          (hexDigit (c.toNat / 16 % 16)) (hexDigit (c.toNat % 16)) c.toNat z
          (hexVal4_hex4 c.toNat (by omega)) (by omega)))
  · rw [show escChar c = '\\' :: 'u' :: hex4 (55296 + (c.toNat - 65536) / 1024) ++
        '\\' :: 'u' :: hex4 (56320 + (c.toNat - 65536) % 1024) from by
      simp [escChar, h1, h2, h3, h4, h5, h6, h7, h8, h9, h10]]
    have hdiv : (c.toNat - 65536) / 1024 ≤ 1023 := by omega
    have hmod : (c.toNat - 65536) % 1024 < 1024 := Nat.mod_lt _ (by omega)
    have hr := readU_pair (hexDigit ((55296 + (c.toNat - 65536) / 1024) / 4096 % 16))
      (hexDigit ((55296 + (c.toNat - 65536) / 1024) / 256 % 16))
      (hexDigit ((55296 + (c.toNat - 65536) / 1024) / 16 % 16))
      (hexDigit ((55296 + (c.toNat - 65536) / 1024) % 16))
      (hexDigit ((56320 + (c.toNat - 65536) % 1024) / 4096 % 16))
      (hexDigit ((56320 + (c.toNat - 65536) % 1024) / 256 % 16))
      (hexDigit ((56320 + (c.toNat - 65536) % 1024) / 16 % 16))
      (hexDigit ((56320 + (c.toNat - 65536) % 1024) % 16))
      (55296 + (c.toNat - 65536) / 1024) (56320 + (c.toNat - 65536) % 1024) z
      (hexVal4_hex4 (55296 + (c.toNat - 65536) / 1024) (by omega))
      (by omega) (hexVal4_hex4 (56320 + (c.toNat - 65536) % 1024) (by omega)) (by omega)
    rw [show 65536 + (55296 + (c.toNat - 65536) / 1024 - 55296) * 1024 +
        (56320 + (c.toNat - 65536) % 1024 - 56320) = c.toNat from by omega] at hr
    exact decF_esc f c.toNat
      ('u' :: (hex4 (55296 + (c.toNat - 65536) / 1024) ++
        '\\' :: 'u' :: (hex4 (56320 + (c.toNat - 65536) % 1024) ++ z))) z
      (readEsc_u _ c.toNat z hr)

theorem decF_escStr (g : List Char) : ∀ (r : List Char) (f : Nat),
    decF (g.length + f + 1) (escStr g ++ '"' :: r) = some (g.map Char.toNat, r) := by
  induction g with
  | nil =>
    intro r f
    exact decF_quote (0 + f) r
  | cons c t ih =>
    intro r f
    have hes : escStr (c :: t) = escChar c ++ escStr t := by simp [escStr]
    rw [show escStr (c :: t) ++ '"' :: r = escChar c ++ (escStr t ++ '"' :: r) from by
      rw [hes, List.append_assoc]]
    rw [show (c :: t).length + f + 1 = (t.length + f + 1) + 1 from by
      simp only [List.length_cons]
      omega]
    rw [decF_escChar (t.length + f + 1) c (escStr t ++ '"' :: r)]
    rw [ih r f]
    rfl

theorem escChar_length_pos (c : Char) : 1 ≤ (escChar c).length := by
  by_cases h1 : c = '"'
  · simp [escChar, h1]
  by_cases h2 : c = '\\'
  · simp [escChar, h1, h2]
  by_cases h3 : c.toNat = 8
  · simp [escChar, h1, h2, h3]
  by_cases h4 : c.toNat = 9
  · simp [escChar, h1, h2, h3, h4]
  by_cases h5 : c.toNat = 10
  · simp [escChar, h1, h2, h3, h4, h5]
  by_cases h6 : c.toNat = 12
  · simp [escChar, h1, h2, h3, h4, h5, h6]
  by_cases h7 : c.toNat = 13
  · simp [escChar, h1, h2, h3, h4, h5, h6, h7]
  by_cases h8 : c.toNat < 32
  · simp [escChar, h1, h2, h3, h4, h5, h6, h7, h8, hex4]
  by_cases h9 : c.toNat < 127
  · simp [escChar, h1, h2, h3, h4, h5, h6, h7, h8, h9]
  by_cases h10 : c.toNat < 65536
  · simp [escChar, h1, h2, h3, h4, h5, h6, h7, h8, h9, h10, hex4]
  · simp [escChar, h1, h2, h3, h4, h5, h6, h7, h8, h9, h10, hex4]

theorem escStr_length_ge (g : List Char) : g.length ≤ (escStr g).length := by
  induction g with
  | nil => simp [escStr]
  | cons c t ih =>
    rw [show escStr (c :: t) = escChar c ++ escStr t from by simp [escStr]]
    simp only [List.length_append, List.length_cons]
    have := escChar_length_pos c
    omega

theorem dec_escStr (g r : List Char) :
    dec (escStr g ++ '"' :: r) = some (g.map Char.toNat, r) := by
  unfold dec
  have hlen : (escStr g ++ '"' :: r).length =
      g.length + ((escStr g).length - g.length + r.length) + 1 := by
    simp only [List.length_append, List.length_cons]
    have := escStr_length_ge g
    omega
  rw [hlen, decF_escStr g r ((escStr g).length - g.length + r.length)]

theorem escStr_split (g₁ g₂ r₁ r₂ : List Char)
    (h : escStr g₁ ++ '"' :: r₁ = escStr g₂ ++ '"' :: r₂) : g₁ = g₂ ∧ r₁ = r₂ := by
  have hd : some (g₁.map Char.toNat, r₁) = some (g₂.map Char.toNat, r₂) := by
    rw [← dec_escStr g₁ r₁, ← dec_escStr g₂ r₂, h]
  obtain ⟨hm, hr⟩ := Prod.mk.inj (Option.some.inj hd)
  exact ⟨List.map_injective_iff.mpr charToNat_inj hm, hr⟩

theorem sortKwargs_search (l s : Nat) (g : String) :
    sortKwargs [("limit", JVal.num l), ("safesearch", JVal.num s), ("lang", JVal.str g)] =
      [("lang", JVal.str g), ("limit", JVal.num l), ("safesearch", JVal.num s)] := by
  simp only [sortKwargs, List.insertionSort, List.orderedInsert]
  norm_num [show keyLe "safesearch" "lang" = false from by decide,
    show keyLe "limit" "lang" = false from by decide,
    show keyLe "limit" "safesearch" = true from by decide]

theorem keyData_search_inj (q c : String) (l₁ s₁ : Nat) (g₁ : String)
    (l₂ s₂ : Nat) (g₂ : String)
    (h : keyData q c [("limit", JVal.num l₁), ("safesearch", JVal.num s₁), ("lang", JVal.str g₁)] =
      keyData q c [("limit", JVal.num l₂), ("safesearch", JVal.num s₂), ("lang", JVal.str g₂)]) :
    l₁ = l₂ ∧ s₁ = s₂ ∧ g₁ = g₂ := by
  unfold keyData at h
  have h1 := List.append_cancel_left h
  obtain ⟨-, hdumps⟩ := List.cons.inj h1
  rw [dumps, dumps, sortKwargs_search, sortKwargs_search] at hdumps
  simp only [List.map_cons, List.map_nil, joinEntries, entryChars, jvalChars] at hdumps
  rw [show escStr "lang".data = "lang".data from by decide,
    show escStr "limit".data = "limit".data from by decide,
    show escStr "safesearch".data = "safesearch".data from by decide] at hdumps
  simp only [List.cons_append, List.append_assoc, List.singleton_append,
    List.nil_append, List.cons.injEq, true_and] at hdumps
  obtain ⟨hg, hrest⟩ := escStr_split g₁.data g₂.data _ _ hdumps
  simp only [List.cons.injEq, true_and] at hrest
  obtain ⟨hl, hrest2⟩ := rep_split l₁ l₂ ',' ',' _ _ (by decide) (by decide) hrest
  simp only [List.cons.injEq, true_and] at hrest2
  obtain ⟨hs, -⟩ := rep_split s₁ s₂ '}' '}' _ _ (by decide) (by decide) hrest2
  exact ⟨hl, hs, string_data_inj hg⟩

/-- C1 amended: the cache key is invariant to the order in which the extra
keyword parameters are supplied (with the pairwise-distinct keys Python
`**kwargs` guarantees); and for a fixed query text and category, two
`/search`-shaped calls whose `limit`, `safesearch`, or `language` values
differ produce different pre-hash key material — the string handed to md5
— so their cache keys differ whenever md5 does not collide on them.  (The
md5-compressed keys themselves cannot be pairwise distinct for all
language strings; see the counterexample.) -/
theorem C1_amended (q c : String) (kw₁ kw₂ : List (String × JVal))
    (hp : kw₁.Perm kw₂) (hn : (kw₁.map Prod.fst).Nodup)
    (l₁ s₁ : Nat) (g₁ : String) (l₂ s₂ : Nat) (g₂ : String)
    (hne : (l₁, s₁, g₁) ≠ (l₂, s₂, g₂)) :
    get_cache_key q c kw₁ = get_cache_key q c kw₂ ∧
    keyData q c [("limit", JVal.num l₁), ("safesearch", JVal.num s₁), ("lang", JVal.str g₁)] ≠
      keyData q c [("limit", JVal.num l₂), ("safesearch", JVal.num s₂), ("lang", JVal.str g₂)] := by
  refine ⟨get_cache_key_perm q c kw₁ kw₂ hp hn, fun h => hne ?_⟩
  obtain ⟨hl, hs, hg⟩ := keyData_search_inj q c l₁ s₁ g₁ l₂ s₂ g₂ h
  rw [hl, hs, hg]

/-- C1 witness: reordered kwargs sharing a key, and a concrete differing
tuple with different key material. -/
theorem C1_witness :
    (get_cache_key "python" "general"
        [("limit", JVal.num 10), ("safesearch", JVal.num 1), ("lang", JVal.str "en")] =
      get_cache_key "python" "general"
        [("lang", JVal.str "en"), ("limit", JVal.num 10), ("safesearch", JVal.num 1)]) ∧
    keyData "python" "general"
        [("limit", JVal.num 3), ("safesearch", JVal.num 1), ("lang", JVal.str "en")] ≠
      keyData "python" "general"
        [("limit", JVal.num 4), ("safesearch", JVal.num 1), ("lang", JVal.str "en")] :=
  C1_amended "python" "general" _ _ (by decide) (by decide) 3 1 "en" 4 1 "en" (by decide)

end SearxApi
